import Mathlib

/-!
A verification development for `scripts/pyarrow_inspect.py`, a Parquet-file
inspection script.  The script's pure logic — value formatting for the
generated JUnit template, the type-name mapping, the per-column summary
statistics, the data-preview row selection, the template generation, and the
command-line dispatch — is shallowly embedded below.  Numeric column values
are modelled as exact rationals; Python floats occurring as *formatted text*
(`f'{val}'`) are modelled by the string they render to, since only that
string enters the output.
-/

set_option maxRecDepth 10000

namespace PyArrowInspect

/-! ### Character-list string utilities

Python string operations used by the script (`in`, `split`, `replace`,
`capitalize`, `join`) are embedded as structurally recursive functions on
`List Char` so that all of them evaluate inside the kernel. -/

/-- `leadMatch pat l` is true when `pat` is an initial segment of `l`
(Python `l.startswith(pat)` on character lists). -/
def leadMatch : List Char → List Char → Bool
  | [], _ => true
  | _ :: _, [] => false
  | a :: as, b :: bs => a == b && leadMatch as bs

/-- `occursIn pat l` is true when `pat` occurs contiguously inside `l`
(Python `pat in l`). -/
def occursIn (pat : List Char) : List Char → Bool
  | [] => leadMatch pat []
  | b :: bs => leadMatch pat (b :: bs) || occursIn pat bs

/-- Python `needle in hay` on strings. -/
def strIn (needle hay : String) : Bool :=
  occursIn needle.data hay.data

/-- Python `s.split(sep)` for a one-character separator: splits at every
occurrence, keeping empty pieces. -/
def splitOnChar (sep : Char) : List Char → List (List Char)
  | [] => [[]]
  | c :: cs =>
    if c == sep then [] :: splitOnChar sep cs
    else
      match splitOnChar sep cs with
      | [] => [[c]]
      | r :: rs => (c :: r) :: rs

/-- Fuel-driven worker for `replaceAll`; the fuel starts at the list length,
which always suffices because each step consumes at least one character. -/
def replaceAux (pat rep : List Char) : Nat → List Char → List Char
  | _, [] => []
  | 0, l => l
  | Nat.succ fuel, c :: cs =>
    if pat.length ≠ 0 ∧ leadMatch pat (c :: cs) then
      rep ++ replaceAux pat rep fuel (List.drop (pat.length - 1) cs)
    else
      c :: replaceAux pat rep fuel cs

/-- Python `s.replace(pat, rep)` for a non-empty pattern: replaces every
non-overlapping occurrence, scanning left to right. -/
def replaceAll (pat rep l : List Char) : List Char :=
  replaceAux pat rep l.length l

/-- Python `s.capitalize()`: first character uppercased, the rest lowercased. -/
def pyCapitalize : List Char → List Char
  | [] => []
  | c :: cs => c.toUpper :: cs.map Char.toLower

/-- Python `s.lower()`. -/
def pyLower (l : List Char) : List Char := l.map Char.toLower

/-! ### Python values and `format_value`

`format_value` in the script dispatches on the runtime type of the value:
`None`, `str`, `bool`, `int`, `float`, and a catch-all.  (In Python `bool`
is a subtype of `int`, but the `bool` branch is tested first, which the
disjoint constructors below reflect.)  A `float` is rendered by `f'{val}'`
and the catch-all by `f'"{val}"'`; both renderings are pure text, so those
constructors carry the text the Python value renders to. -/

inductive PyValue where
  | none : PyValue
  | str (s : String) : PyValue
  | bool (b : Bool) : PyValue
  | int (n : ℤ) : PyValue
  | float (text : String) : PyValue
  | other (text : String) : PyValue
deriving DecidableEq, Repr

/-- Embeds `format_value` from the script: renders one value as a Java
literal for the generated test template. -/
def format_value : PyValue → String
  | PyValue.none => "null"
  | PyValue.str s => "\"" ++ s ++ "\""
  | PyValue.bool b => if b then "true" else "false"
  | PyValue.int n => if n > 2147483647 then toString n ++ "L" else toString n
  | PyValue.float t => t
  | PyValue.other t => "\"" ++ t ++ "\""

/-! ### `python_to_java_type` -/

/-- The script's ordered `type_map` table (Python dicts preserve insertion
order, and the loop takes the first matching entry). -/
def type_map : List (String × String) :=
  [("int32", "Integer"), ("int64", "Long"), ("float", "Float"),
   ("double", "Double"), ("string", "String"), ("binary", "String"),
   ("bool", "Boolean")]

/-- Embeds `python_to_java_type`: the first entry of `type_map` whose key is
a substring of the *lowercased* type name wins; otherwise `Object`. -/
def python_to_java_type (pyarrow_type : String) : String :=
  match type_map.find? (fun kv => occursIn kv.1.data (pyLower pyarrow_type.data)) with
  | some kv => kv.2
  | Option.none => "Object"

/-- The lookup exactly as claim C8 words it — substring match against the
type name itself, without the lowercasing the code performs — kept for
comparison with `python_to_java_type`. -/
def java_type_claimed (pyarrow_type : String) : String :=
  match type_map.find? (fun kv => occursIn kv.1.data pyarrow_type.data) with
  | some kv => kv.2
  | Option.none => "Object"

/-! ### Per-column summary statistics (`inspect_parquet`, column loop)

A numeric column's `to_pylist()` result is a list of `None`s and numbers;
the numbers are modelled as exact rationals.  `min`/`max`/`sum` are Python
builtins folding over the list, embedded here as explicit folds. -/

/-- The `[v for v in values if v is not None]` comprehension. -/
def non_null_values (values : List (Option ℚ)) : List ℚ :=
  values.filterMap id

/-- Python `min` over a list: `None` on the empty list (where Python would
raise), otherwise the fold of binary `min` from the first element. -/
def pyMin : List ℚ → Option ℚ
  | [] => Option.none
  | x :: xs => some (xs.foldl min x)

/-- Python `max` over a list, analogously. -/
def pyMax : List ℚ → Option ℚ
  | [] => Option.none
  | x :: xs => some (xs.foldl max x)

/-- Python `sum` over a list: left fold of `+` from `0`. -/
def pySum (l : List ℚ) : ℚ := l.foldl (· + ·) 0

/-- Rounding to two decimal places, the model of the `f"{avg:.2f}"`
formatting applied to the exact mean. -/
def roundTo2 (q : ℚ) : ℚ := (round (q * 100) : ℤ) / 100

/-- What the numeric-stats block prints for one column. -/
structure NumericStats where
  statMin : ℚ
  statMax : ℚ
  statAvg : Option ℚ
deriving DecidableEq, Repr

/-- Embeds lines 75–82 of the script: for a column whose type string is one
of `int32`, `int64`, `float`, `double`, the Min/Max lines are printed when a
non-null value exists, and the Average line additionally requires more than
one non-null value. -/
def numericSummary (colType : String) (values : List (Option ℚ)) :
    Option NumericStats :=
  if colType ∈ ["int32", "int64", "float", "double"] then
    match pyMin (non_null_values values), pyMax (non_null_values values) with
    | some mn, some mx =>
        some ⟨mn, mx,
          if 1 < (non_null_values values).length then
            some (roundTo2 (pySum (non_null_values values) /
                            (non_null_values values).length))
          else Option.none⟩
    | _, _ => Option.none
  else Option.none

/-- Embeds lines 85 of the script: the sample line
`First {min(5, len(values))} values: {values[:5]}` is printed only inside
the `if len(values) > 0` guard; `none` models the line being absent. -/
def firstValuesLine (values : List PyValue) : Option (List PyValue) :=
  if 0 < values.length then some (values.take 5) else Option.none

/-- Embeds lines 86–87: `Last 5 values: {values[-5:]}` is printed only when
`len(values) > 10` (the enclosing `len(values) > 0` guard is then implied);
the Python slice `values[-5:]` is `drop (length - 5)`. -/
def lastFiveLine (values : List PyValue) : Option (List PyValue) :=
  if 10 < values.length then some (values.drop (values.length - 5))
  else Option.none

/-! ### Data preview (`inspect_parquet`, lines 93–99) -/

/-- The shape of the printed preview: either the whole table, or a leading
block, an ellipsis line, and a trailing block. -/
inductive PreviewOut (α : Type) where
  | full (rows : List α) : PreviewOut α
  | truncated (lead trail : List α) : PreviewOut α
deriving DecidableEq, Repr

/-- Embeds the preview selection: all rows when `len(df) ≤ max_rows`;
otherwise `df.head(max_rows // 2)`, an ellipsis, and
`df.tail(max_rows // 2)` — the first and last `max_rows / 2` rows. -/
def dataPreview {α : Type} (rows : List α) (max_rows : ℕ) : PreviewOut α :=
  if rows.length ≤ max_rows then PreviewOut.full rows
  else PreviewOut.truncated (rows.take (max_rows / 2))
    (rows.drop (rows.length - max_rows / 2))

/-! ### Tables and `generate_junit_template`

A loaded table is modelled by its row count and its columns; each column
carries its name, the string form of its PyArrow type, and its values
(`to_pylist()`).  In a well-formed table every column holds `numRows`
values; the template generator reads `values[i][0]` only under the
`len(table) > 0` guard, embedded below with `headD`. -/

structure Column where
  name : String
  type : String
  values : List PyValue

structure Table where
  numRows : ℕ
  columns : List Column

/-- One `assertEquals("name", …getColumn(i).getPathString());` line. -/
def colAssertLine (name : String) (i : ℕ) : String :=
  "        assertEquals(\"" ++ name ++
  "\", reader.getSchema().getColumn(" ++ Nat.repr i ++ ").getPathString());\n"

/-- The `for i, col_name in enumerate(table.column_names)` loop of the
generator.  The loop also computes `java_type = python_to_java_type(...)`
for each column, which the emitted text never uses; the unused binding is
kept to mirror the source. -/
def columnAssertions (i : ℕ) : List Column → String
  | [] => ""
  | c :: cs =>
    let _java_type := python_to_java_type c.type
    colAssertLine c.name i ++ columnAssertions (i + 1) cs

/-- One `assertEquals(<literal>, firstRow.getColumnValue(i));` line. -/
def rowAssertLine (v : PyValue) (i : ℕ) : String :=
  "        assertEquals(" ++ format_value v ++ ", firstRow.getColumnValue(" ++
  Nat.repr i ++ "));\n"

/-- The first-row verification loop: `val = values[i][0]` for each column. -/
def firstRowAssertions (i : ℕ) : List Column → String
  | [] => ""
  | c :: cs =>
    rowAssertLine (c.values.headD PyValue.none) i ++ firstRowAssertions (i + 1) cs

/-- Python `file_path.split('/')[-1]` (`split` never yields an empty list). -/
def fileNameOf (file_path : String) : String :=
  String.mk ((splitOnChar '/' file_path.data).getLastD [])

/-- The generated test-method name: base name with `.parquet` removed,
split on `_`, each word capitalized, then joined. -/
def testNameOf (file_name : String) : String :=
  String.mk (List.flatten
    ((splitOnChar '_' (replaceAll ".parquet".data [] file_name.data)).map
      pyCapitalize))

/-- Embeds `generate_junit_template`: the boilerplate JUnit method text
derived from the file name, the row count, the column names, and the first
row's formatted values. -/
def generate_junit_template (file_path : String) (table : Table) : String :=
  let file_name := fileNameOf file_path
  let test_name := testNameOf file_name
  let header :=
    "\n@Test\nvoid test" ++ test_name ++ "() throws IOException \x7b\n" ++
    "    String filePath = TEST_DATA_DIR + \"" ++ file_name ++ "\";\n\n" ++
    "    try (ParquetFileReader reader = new ParquetFileReader(filePath)) \x7b\n" ++
    "        RowColumnGroupIterator iterator = reader.rowIterator();\n\n" ++
    "        // Expected row count\n" ++
    "        assertEquals(" ++ Nat.repr table.numRows ++
    "L, reader.getTotalRowCount());\n\n" ++
    "        // Expected columns\n" ++
    "        assertEquals(" ++ Nat.repr table.columns.length ++
    ", reader.getSchema().getNumColumns());\n"
  let withCols := header ++ columnAssertions 0 table.columns
  let withRows :=
    if 0 < table.numRows then
      withCols ++
      "\n        // Verify first row values\n" ++
      "        assertTrue(iterator.hasNext());\n" ++
      "        RowColumnGroup firstRow = iterator.next();\n" ++
      firstRowAssertions 0 table.columns
    else withCols
  withRows ++ "    \x7d\n\x7d\n"

/-! ### Command-line dispatch (`__main__`, lines 194–211) -/

/-- How one call of `inspect_parquet` can end: normal return, a
`FileNotFoundError`, or any other exception. -/
inductive InspectOutcome where
  | success : InspectOutcome
  | fileNotFound : InspectOutcome
  | otherError : InspectOutcome
deriving DecidableEq, Repr

/-- The externally visible result of one program run. -/
structure CliRun where
  printedUsage : Bool
  printedErrorLine : Bool
  printedTrace : Bool
  printedFullReport : Bool
  exitCode : ℕ
deriving DecidableEq, Repr

/-- Embeds the `__main__` block: with fewer than two `argv` entries the
usage docstring is printed and the exit status is 1; otherwise
`inspect_parquet` runs, a `FileNotFoundError` is reported with a short
message (no trace) and status 1, any other exception with a message plus a
traceback and status 1, and a normal return ends the process with status 0
after the full report was printed. -/
def runMain (argv : List String) (outcome : InspectOutcome) : CliRun :=
  if argv.length < 2 then
    { printedUsage := true, printedErrorLine := false, printedTrace := false,
      printedFullReport := false, exitCode := 1 }
  else
    match outcome with
    | InspectOutcome.success =>
        { printedUsage := false, printedErrorLine := false,
          printedTrace := false, printedFullReport := true, exitCode := 0 }
    | InspectOutcome.fileNotFound =>
        { printedUsage := false, printedErrorLine := true,
          printedTrace := false, printedFullReport := false, exitCode := 1 }
    | InspectOutcome.otherError =>
        { printedUsage := false, printedErrorLine := true,
          printedTrace := true, printedFullReport := false, exitCode := 1 }

/-! ### Spec-side companion definitions and concrete instances -/

/-- Spec-side reading of the type-mapping rule: the target of the first
table entry whose key occurs as a substring of `name`, `Object` when no key
occurs.  Compared against the code's `find?`-based lookup below. -/
def firstMatchTarget (name : List Char) : List (String × String) → String
  | [] => "Object"
  | kv :: rest =>
    if occursIn kv.1.data name then kv.2 else firstMatchTarget name rest

/-- The three-row table of claim C3: columns `id : int64` and
`name : string`, first row `(1, "Alice")`. -/
def sampleTable : Table :=
  { numRows := 3,
    columns :=
      [{ name := "id", type := "int64",
         values := [PyValue.int 1, PyValue.int 2, PyValue.int 3] },
       { name := "name", type := "string",
         values := [PyValue.str "Alice", PyValue.str "Bob",
                    PyValue.str "Carol"] }] }

/-- A column list of eleven values, used to instantiate the sample-line
properties. -/
def vs11 : List PyValue :=
  [PyValue.int 1, PyValue.int 2, PyValue.int 3, PyValue.int 4, PyValue.int 5,
   PyValue.int 6, PyValue.int 7, PyValue.int 8, PyValue.int 9, PyValue.int 10,
   PyValue.int 11]

/-- A one-row, one-column table with an `int32` column whose first value
formats as `5`. -/
def wTable1 : Table :=
  { numRows := 1,
    columns := [{ name := "a", type := "int32", values := [PyValue.int 5] }] }

/-- A table matching `wTable1` in column names, row count and formatted
first-row values, but with a `double` column. -/
def wTable2 : Table :=
  { numRows := 1,
    columns := [{ name := "a", type := "double",
                  values := [PyValue.float "5"] }] }

/-! ## Helper lemmas -/

/-- A left fold of `min` lands in the folded list and bounds it below. -/
theorem foldl_min_spec (x : ℚ) (xs : List ℚ) :
    xs.foldl min x ∈ x :: xs ∧ ∀ y ∈ x :: xs, xs.foldl min x ≤ y := by
  induction xs generalizing x with
  | nil => simp
  | cons a as ih =>
    have h := ih (min x a)
    simp only [List.foldl_cons]
    constructor
    · rcases List.mem_cons.mp h.1 with h1 | h1
      · rcases min_choice x a with hc | hc
        · rw [h1, hc]; exact List.mem_cons_self _ _
        · rw [h1, hc]; simp
      · simp [h1]
    · intro y hy
      rcases List.mem_cons.mp hy with rfl | hy'
      · exact le_trans (h.2 _ (List.mem_cons_self _ _)) (min_le_left _ _)
      · rcases List.mem_cons.mp hy' with rfl | hy''
        · exact le_trans (h.2 _ (List.mem_cons_self _ _)) (min_le_right _ _)
        · exact h.2 y (by simp [hy''])

/-- A left fold of `max` lands in the folded list and bounds it above. -/
theorem foldl_max_spec (x : ℚ) (xs : List ℚ) :
    xs.foldl max x ∈ x :: xs ∧ ∀ y ∈ x :: xs, y ≤ xs.foldl max x := by
  induction xs generalizing x with
  | nil => simp
  | cons a as ih =>
    have h := ih (max x a)
    simp only [List.foldl_cons]
    constructor
    · rcases List.mem_cons.mp h.1 with h1 | h1
      · rcases max_choice x a with hc | hc
        · rw [h1, hc]; exact List.mem_cons_self _ _
        · rw [h1, hc]; simp
      · simp [h1]
    · intro y hy
      rcases List.mem_cons.mp hy with rfl | hy'
      · exact le_trans (le_max_left _ _) (h.2 _ (List.mem_cons_self _ _))
      · rcases List.mem_cons.mp hy' with rfl | hy''
        · exact le_trans (le_max_right _ _) (h.2 _ (List.mem_cons_self _ _))
        · exact h.2 y (by simp [hy''])

/-- Python `min` of a non-empty list is the true minimum. -/
theorem pyMin_spec (l : List ℚ) (m : ℚ) (h : pyMin l = some m) :
    m ∈ l ∧ ∀ x ∈ l, m ≤ x := by
  cases l with
  | nil => cases h
  | cons a as =>
    obtain rfl : as.foldl min a = m := Option.some.inj h
    exact foldl_min_spec a as

/-- Python `max` of a non-empty list is the true maximum. -/
theorem pyMax_spec (l : List ℚ) (m : ℚ) (h : pyMax l = some m) :
    m ∈ l ∧ ∀ x ∈ l, x ≤ m := by
  cases l with
  | nil => cases h
  | cons a as =>
    obtain rfl : as.foldl max a = m := Option.some.inj h
    exact foldl_max_spec a as

/-- Python `sum` agrees with the mathematical list sum. -/
theorem pySum_eq_sum (l : List ℚ) : pySum l = l.sum := by
  rw [pySum, List.sum_eq_foldl]

/-- The code's `find?`-based type lookup computes the spec-side first-match
recursion on whatever character list it is given. -/
theorem find?_eq_firstMatchTarget (name : List Char)
    (tbl : List (String × String)) :
    (match tbl.find? (fun kv => occursIn kv.1.data name) with
      | some kv => kv.2
      | Option.none => "Object") = firstMatchTarget name tbl := by
  induction tbl with
  | nil => rfl
  | cons kv rest ih =>
    rw [firstMatchTarget, List.find?]
    cases h : occursIn kv.1.data name with
    | true => simp
    | false => simpa using ih

/-! ## Claim theorems -/

/-- C7, counterexample: `-2147483649` lies beyond the 32-bit integer range
(below `-2147483648`), yet `format_value` renders it as a plain decimal
literal, not with the claimed `L` suffix — the code only suffixes integers
*greater than* the 32-bit maximum. -/
theorem c7_counterexample :
    (-2147483649 : ℤ) < -2147483648 ∧
    format_value (PyValue.int (-2147483649)) = "-2147483649" ∧
    format_value (PyValue.int (-2147483649)) ≠ "-2147483649L" := by decide

/-- C7, amended: `format_value` renders `None` as `null`, strings
double-quoted, booleans as lowercase `true`/`false`, integers *greater than*
`2147483647` as their decimal digits suffixed with `L`, every other integer
(including every negative one) as a plain decimal literal, floats by their
default textual notation, and any other value as a quoted string fallback. -/
theorem c7_format_value_amended :
    format_value PyValue.none = "null" ∧
    (∀ s, format_value (PyValue.str s) = "\"" ++ s ++ "\"") ∧
    (format_value (PyValue.bool true) = "true" ∧
     format_value (PyValue.bool false) = "false") ∧
    (∀ n : ℤ, 2147483647 < n →
      format_value (PyValue.int n) = toString n ++ "L") ∧
    (∀ n : ℤ, n ≤ 2147483647 → format_value (PyValue.int n) = toString n) ∧
    (∀ t, format_value (PyValue.float t) = t) ∧
    (∀ t, format_value (PyValue.other t) = "\"" ++ t ++ "\"") := by
  refine ⟨rfl, fun s => rfl, ⟨rfl, rfl⟩, ?_, ?_, fun t => rfl, fun t => rfl⟩
  · intro n h
    simp only [format_value]
    rw [if_pos h]
  · intro n h
    simp only [format_value]
    rw [if_neg (by omega)]

/-- Witness for C7: the amended theorem instantiated at `3000000000`
(suffixed) and at `7` (plain). -/
theorem c7_witness :
    format_value (PyValue.int 3000000000) = toString (3000000000 : ℤ) ++ "L" ∧
    format_value (PyValue.int 7) = toString (7 : ℤ) :=
  ⟨c7_format_value_amended.2.2.2.1 3000000000 (by norm_num),
   c7_format_value_amended.2.2.2.2.1 7 (by norm_num)⟩

/-- C8, counterexample: on the type-name string `"INT64"` the code lowercases
before the substring test and returns `Long`, while the claim's lookup —
substring match against the type name itself — returns `Object`. -/
theorem c8_counterexample :
    python_to_java_type "INT64" = "Long" ∧
    java_type_claimed "INT64" = "Object" ∧
    python_to_java_type "INT64" ≠ java_type_claimed "INT64" := by decide

/-- C8, amended: for every type-name string, `python_to_java_type` returns
the target of the first entry of the fixed ordered table
`int32→Integer, int64→Long, float→Float, double→Double, string→String,
binary→String, bool→Boolean` whose key occurs as a substring of the
*lowercased* type name, and `Object` when no key occurs in it. -/
theorem c8_java_type_amended (t : String) :
    python_to_java_type t = firstMatchTarget (pyLower t.data) type_map := by
  rw [python_to_java_type]
  exact find?_eq_firstMatchTarget (pyLower t.data) type_map

/-- C4: with a file argument present, a `FileNotFoundError` produces an
error line without a trace and exit status 1, any other inspection error an
error line with a full trace and exit status 1, and a normal return exit
status 0 after the full report. -/
theorem c4_exit_codes (argv : List String) (outcome : InspectOutcome)
    (h : 2 ≤ argv.length) :
    (outcome = InspectOutcome.fileNotFound → runMain argv outcome =
      { printedUsage := false, printedErrorLine := true, printedTrace := false,
        printedFullReport := false, exitCode := 1 }) ∧
    (outcome = InspectOutcome.otherError → runMain argv outcome =
      { printedUsage := false, printedErrorLine := true, printedTrace := true,
        printedFullReport := false, exitCode := 1 }) ∧
    (outcome = InspectOutcome.success → runMain argv outcome =
      { printedUsage := false, printedErrorLine := false, printedTrace := false,
        printedFullReport := true, exitCode := 0 }) := by
  unfold runMain
  rw [if_neg (by omega)]
  rcases outcome with _ | _ | _ <;> refine ⟨?_, ?_, ?_⟩ <;> intro h <;>
    first | rfl | cases h

/-- Witness for C4: the three outcomes at a concrete two-element `argv`. -/
theorem c4_witness :
    runMain ["prog", "f.parquet"] InspectOutcome.fileNotFound =
      { printedUsage := false, printedErrorLine := true, printedTrace := false,
        printedFullReport := false, exitCode := 1 } ∧
    runMain ["prog", "f.parquet"] InspectOutcome.otherError =
      { printedUsage := false, printedErrorLine := true, printedTrace := true,
        printedFullReport := false, exitCode := 1 } ∧
    runMain ["prog", "f.parquet"] InspectOutcome.success =
      { printedUsage := false, printedErrorLine := false, printedTrace := false,
        printedFullReport := true, exitCode := 0 } :=
  ⟨(c4_exit_codes ["prog", "f.parquet"] InspectOutcome.fileNotFound
      (by decide)).1 rfl,
   (c4_exit_codes ["prog", "f.parquet"] InspectOutcome.otherError
      (by decide)).2.1 rfl,
   (c4_exit_codes ["prog", "f.parquet"] InspectOutcome.success
      (by decide)).2.2 rfl⟩

/-- C9: invoked without the required file-path argument, the program prints
the usage documentation and exits with status 1 (whatever the inspection
would have done). -/
theorem c9_usage (argv : List String) (outcome : InspectOutcome)
    (h : argv.length < 2) :
    (runMain argv outcome).printedUsage = true ∧
    (runMain argv outcome).exitCode = 1 := by
  unfold runMain
  rw [if_pos h]
  exact ⟨rfl, rfl⟩

/-- Witness for C9: a one-element `argv` (program name only). -/
theorem c9_witness :
    (runMain ["prog"] InspectOutcome.success).printedUsage = true ∧
    (runMain ["prog"] InspectOutcome.success).exitCode = 1 :=
  c9_usage ["prog"] InspectOutcome.success (by decide)

/-- C5: the "Last 5 values" line appears exactly when the column holds more
than 10 values, and it then shows exactly the final 5 values in their
original order (a length-5 suffix of the value list). -/
theorem c5_last_five (values : List PyValue) :
    ((lastFiveLine values).isSome ↔ 10 < values.length) ∧
    ∀ l, lastFiveLine values = some l →
      l.length = 5 ∧ ∃ p, values = p ++ l := by
  unfold lastFiveLine
  constructor
  · split
    · simp_all
    · simp_all
  · intro l hl
    split at hl
    · obtain rfl : values.drop (values.length - 5) = l := Option.some.inj hl
      refine ⟨?_, values.take (values.length - 5), ?_⟩
      · rw [List.length_drop]; omega
      · rw [List.take_append_drop]
    · cases hl

/-- Witness for C5: an eleven-value column shows the line, whose content is
the length-5 suffix. -/
theorem c5_witness :
    (lastFiveLine vs11).isSome = true ∧
    (List.drop 6 vs11).length = 5 ∧ ∃ p, vs11 = p ++ List.drop 6 vs11 :=
  ⟨(c5_last_five vs11).1.mpr (by decide),
   ((c5_last_five vs11).2 (List.drop 6 vs11) (by decide)).1,
   ((c5_last_five vs11).2 (List.drop 6 vs11) (by decide)).2⟩

/-- C6, counterexample: a column with no values prints no leading-values
sample line (the whole sample block sits under a `len(values) > 0` guard),
refuting the claim that the line is printed for every column. -/
theorem c6_counterexample :
    firstValuesLine [] = Option.none := by decide

/-- C6, amended: for every column holding at least one value, the summary
shows the sample line with the column's first `min 5 length` values. -/
theorem c6_first_values_amended (values : List PyValue) (h : values ≠ []) :
    firstValuesLine values = some (values.take 5) ∧
    (values.take 5).length = min 5 values.length := by
  unfold firstValuesLine
  rw [if_pos (List.length_pos.mpr h)]
  exact ⟨rfl, List.length_take 5 values⟩

/-- Witness for C6: a two-value column. -/
theorem c6_witness :
    firstValuesLine [PyValue.int 1, PyValue.int 2] =
      some ([PyValue.int 1, PyValue.int 2].take 5) ∧
    ([PyValue.int 1, PyValue.int 2].take 5).length =
      min 5 [PyValue.int 1, PyValue.int 2].length :=
  c6_first_values_amended [PyValue.int 1, PyValue.int 2] (by decide)

/-- C1: with row count `R` and max-preview value `M`, the preview is the
whole table when `R ≤ M`; when `R > M` it is a leading block of exactly
`M / 2` rows and a trailing block of exactly `M / 2` rows around an
ellipsis, both taken in order from the table. -/
theorem c1_preview {α : Type} (rows : List α) (M : ℕ) :
    (rows.length ≤ M → dataPreview rows M = PreviewOut.full rows) ∧
    (M < rows.length → ∃ lead mid trail,
      dataPreview rows M = PreviewOut.truncated lead trail ∧
      lead.length = M / 2 ∧ trail.length = M / 2 ∧
      rows = lead ++ mid ++ trail) := by
  constructor
  · intro h
    unfold dataPreview
    rw [if_pos h]
  · intro h
    refine ⟨rows.take (M / 2),
      (rows.drop (M / 2)).take (rows.length - M / 2 - M / 2),
      rows.drop (rows.length - M / 2), ?_, ?_, ?_, ?_⟩
    · unfold dataPreview
      rw [if_neg (by omega)]
    · rw [List.length_take]; omega
    · rw [List.length_drop]; omega
    · conv_lhs => rw [← List.take_append_drop (M / 2) rows,
        ← List.take_append_drop (rows.length - M / 2 - M / 2)
          (rows.drop (M / 2))]
      rw [List.drop_drop, List.append_assoc,
        (by omega :
          M / 2 + (rows.length - M / 2 - M / 2) = rows.length - M / 2)]

/-- Witness for C1: a three-row table fits under the default 20; a five-row
table at `M = 2` splits into one leading and one trailing row. -/
theorem c1_witness :
    dataPreview [1, 2, 3] 20 = PreviewOut.full [1, 2, 3] ∧
    ∃ lead mid trail,
      dataPreview [1, 2, 3, 4, 5] 2 = PreviewOut.truncated lead trail ∧
      lead.length = 2 / 2 ∧ trail.length = 2 / 2 ∧
      [1, 2, 3, 4, 5] = lead ++ mid ++ trail :=
  ⟨(c1_preview [1, 2, 3] 20).1 (by decide),
   (c1_preview [1, 2, 3, 4, 5] 2).2 (by decide)⟩

/-- C2: for a column of declared type `int32`, `int64`, `float` or `double`
with at least one non-null value, the numeric block appears; its Min and Max
are the true minimum and maximum of the non-null values, the Average is
present exactly when more than one non-null value exists, and it then equals
the arithmetic mean of the non-null values rounded to two decimals. -/
theorem c2_numeric_stats (colType : String) (values : List (Option ℚ))
    (htype : colType ∈ ["int32", "int64", "float", "double"])
    (hnn : non_null_values values ≠ []) :
    ∃ s : NumericStats, numericSummary colType values = some s ∧
      s.statMin ∈ non_null_values values ∧
      (∀ x ∈ non_null_values values, s.statMin ≤ x) ∧
      s.statMax ∈ non_null_values values ∧
      (∀ x ∈ non_null_values values, x ≤ s.statMax) ∧
      (s.statAvg.isSome ↔ 1 < (non_null_values values).length) ∧
      ∀ a, s.statAvg = some a →
        a = roundTo2 ((non_null_values values).sum /
                      (non_null_values values).length) := by
  obtain ⟨x, xs, hcons⟩ := List.exists_cons_of_ne_nil hnn
  have hmin : pyMin (non_null_values values) = some (xs.foldl min x) := by
    rw [hcons]; rfl
  have hmax : pyMax (non_null_values values) = some (xs.foldl max x) := by
    rw [hcons]; rfl
  refine ⟨⟨xs.foldl min x, xs.foldl max x,
    if 1 < (non_null_values values).length then
      some (roundTo2 (pySum (non_null_values values) /
                      (non_null_values values).length))
    else Option.none⟩, ?_, ?_, ?_, ?_, ?_, ?_, ?_⟩
  · unfold numericSummary
    rw [if_pos htype, hmin, hmax]
  · exact hcons ▸ (pyMin_spec _ _ hmin).1
  · exact hcons ▸ (pyMin_spec _ _ hmin).2
  · exact hcons ▸ (pyMax_spec _ _ hmax).1
  · exact hcons ▸ (pyMax_spec _ _ hmax).2
  · split
    · simp_all
    · simp_all
  · intro a ha
    split at ha
    · obtain rfl := (Option.some.inj ha).symm
      rw [pySum_eq_sum]
    · cases ha

/-- Witness for C2: an `int64` column `[1, None, 2]` — two non-null values,
so the Average is present. -/
theorem c2_witness :
    ∃ s : NumericStats,
      numericSummary "int64" [some (1 : ℚ), Option.none, some 2] = some s ∧
      s.statMin ∈ non_null_values [some (1 : ℚ), Option.none, some 2] ∧
      (∀ x ∈ non_null_values [some (1 : ℚ), Option.none, some 2],
        s.statMin ≤ x) ∧
      s.statMax ∈ non_null_values [some (1 : ℚ), Option.none, some 2] ∧
      (∀ x ∈ non_null_values [some (1 : ℚ), Option.none, some 2],
        x ≤ s.statMax) ∧
      (s.statAvg.isSome ↔
        1 < (non_null_values [some (1 : ℚ), Option.none, some 2]).length) ∧
      ∀ a, s.statAvg = some a →
        a = roundTo2
          ((non_null_values [some (1 : ℚ), Option.none, some 2]).sum /
           (non_null_values [some (1 : ℚ), Option.none, some 2]).length) :=
  c2_numeric_stats "int64" [some (1 : ℚ), Option.none, some 2]
    (by decide) (by decide)

/-- C3, counterexample: in the template generated for `sample_data.parquet`
with first row `(1, "Alice")`, the first-row assertion for the `int64`
column is `assertEquals(1, …)` — a plain integer literal — not the
`assertEquals(1L, …)` the claim states, because `1` does not exceed the
32-bit range. -/
theorem c3_counterexample :
    strIn "assertEquals(1L, firstRow.getColumnValue(0));"
      (generate_junit_template "sample_data.parquet" sampleTable) = false ∧
    strIn "assertEquals(1, firstRow.getColumnValue(0));"
      (generate_junit_template "sample_data.parquet" sampleTable) = true := by
  decide

/-- C3, amended: for `sample_data.parquet` with 3 rows, columns
`[id : int64, name : string]` and first row `(1, "Alice")`, the generated
method is `testSampleData`, the template asserts `3L` total rows, `2`
columns, column path strings `"id"`/`"name"` at indices 0/1, and asserts
`1` (a plain integer literal, as the value does not exceed the 32-bit
range) and `"Alice"` for the first-row values. -/
theorem c3_template :
    testNameOf (fileNameOf "sample_data.parquet") = "SampleData" ∧
    strIn "void testSampleData() throws IOException"
      (generate_junit_template "sample_data.parquet" sampleTable) = true ∧
    strIn "assertEquals(3L, reader.getTotalRowCount());"
      (generate_junit_template "sample_data.parquet" sampleTable) = true ∧
    strIn "assertEquals(2, reader.getSchema().getNumColumns());"
      (generate_junit_template "sample_data.parquet" sampleTable) = true ∧
    strIn "assertEquals(\"id\", reader.getSchema().getColumn(0).getPathString());"
      (generate_junit_template "sample_data.parquet" sampleTable) = true ∧
    strIn "assertEquals(\"name\", reader.getSchema().getColumn(1).getPathString());"
      (generate_junit_template "sample_data.parquet" sampleTable) = true ∧
    strIn "assertEquals(1, firstRow.getColumnValue(0));"
      (generate_junit_template "sample_data.parquet" sampleTable) = true ∧
    strIn "assertEquals(\"Alice\", firstRow.getColumnValue(1));"
      (generate_junit_template "sample_data.parquet" sampleTable) = true := by
  decide

/-- The per-column path assertions depend only on the column names. -/
theorem columnAssertions_eq_of_names (i : ℕ) (cs1 cs2 : List Column)
    (h : cs1.map Column.name = cs2.map Column.name) :
    columnAssertions i cs1 = columnAssertions i cs2 := by
  induction cs1 generalizing i cs2 with
  | nil =>
    cases cs2 with
    | nil => rfl
    | cons d ds => simp at h
  | cons c cs ih =>
    cases cs2 with
    | nil => simp at h
    | cons d ds =>
      simp only [List.map_cons, List.cons.injEq] at h
      simp only [columnAssertions]
      rw [h.1, ih (i + 1) ds h.2]

/-- The first-row assertions depend only on the formatted first values. -/
theorem firstRowAssertions_eq_of_formats (i : ℕ) (cs1 cs2 : List Column)
    (h : cs1.map (fun c => format_value (c.values.headD PyValue.none)) =
         cs2.map (fun c => format_value (c.values.headD PyValue.none))) :
    firstRowAssertions i cs1 = firstRowAssertions i cs2 := by
  induction cs1 generalizing i cs2 with
  | nil =>
    cases cs2 with
    | nil => rfl
    | cons d ds => simp at h
  | cons c cs ih =>
    cases cs2 with
    | nil => simp at h
    | cons d ds =>
      simp only [List.map_cons, List.cons.injEq] at h
      simp only [firstRowAssertions, rowAssertLine]
      rw [h.1, ih (i + 1) ds h.2]

/-- C10: the generated template never depends on the `python_to_java_type`
result — two tables with the same column names, the same row count and
identically formatted first-row values yield the identical template string,
whatever their column types. -/
theorem c10_type_independence (fp : String) (t1 t2 : Table)
    (hn : t1.columns.map Column.name = t2.columns.map Column.name)
    (hr : t1.numRows = t2.numRows)
    (hv : t1.columns.map (fun c => format_value (c.values.headD PyValue.none)) =
          t2.columns.map (fun c => format_value (c.values.headD PyValue.none))) :
    generate_junit_template fp t1 = generate_junit_template fp t2 := by
  have hlen : t1.columns.length = t2.columns.length := by
    simpa using congrArg List.length hn
  simp only [generate_junit_template]
  rw [hr, hlen, columnAssertions_eq_of_names 0 _ _ hn,
    firstRowAssertions_eq_of_formats 0 _ _ hv]

/-- Witness for C10: an `int32` column and a `double` column whose first
values both format as `5` produce the same template. -/
theorem c10_witness :
    generate_junit_template "t.parquet" wTable1 =
    generate_junit_template "t.parquet" wTable2 :=
  c10_type_independence "t.parquet" wTable1 wTable2
    (by decide) (by decide) (by decide)

end PyArrowInspect
